import Mathlib

/-!
# MindGarden memory subsystem — shallow embedding and verification

This file embeds the MindGarden memory subsystem
(`src/mindgarden/memory/...`) in Lean 4 and settles the frozen claims
about it.

Modelling conventions:
* Python values flowing through dicts/JSON are modelled by the inductive
  `PyVal` (strings, numbers as exact rationals, booleans, `None`, lists,
  dicts as ordered association lists with unique keys maintained by
  `dictSet`).
* Python floats are modelled as exact rationals `ℚ`; the claims about
  timestamps concern ordering of values produced as `t` and `t + 0.1`,
  which exact arithmetic reflects faithfully for every realistic clock
  value.
* The Neo4j driver (`Neo4jManager.run_query`) is modelled as an oracle
  `RunQuery : String → Row → Except Unit (List Row)`: given the query
  text and its parameter dict it either fails (an exception in Python)
  or returns the result rows, each a mapping from column name to value.
* `try/except` blocks become `match` on `Except` results; a function
  that cannot raise is a total Lean function.
-/

namespace MindGarden

/-- A Python value as it appears in the ephemeral memory dicts, query
parameters, result rows and parsed JSON. Numbers are exact rationals. -/
inductive PyVal where
  | str (s : String)
  | num (q : ℚ)
  | bool (b : Bool)
  | null
  | list (xs : List PyVal)
  | dict (fields : List (String × PyVal))

/-- A Python dict (ordered association list; keys unique in every dict
the program builds, maintained by `dictSet`). Also used for query
result rows (column name → value). -/
abbrev Row := List (String × PyVal)

/-- Python `d.get(k, default)` on a dict: first binding of `k`, else the
default. -/
def pyGet (d : Row) (k : String) (default : PyVal) : PyVal :=
  (List.lookup k d).getD default

/-- Python `d[k] = v` semantics: overwrite the existing binding in place
(keeping its position), else append a new binding. -/
def dictSet : Row → String → PyVal → Row
  | [], k, v => [(k, v)]
  | (k0, v0) :: rest, k, v =>
      if k0 = k then (k, v) :: rest else (k0, v0) :: dictSet rest k v

/-- Python `d.update(m)`: set every binding of `m` into `d`, in order. -/
def dictUpdate (d : Row) (m : Row) : Row :=
  m.foldl (fun acc kv => dictSet acc kv.1 kv.2) d

/-- Python `str(v)` as used by the f-string formatting in
`retrieve_relevant`. The claims only ever format string fields; the
rendering of the non-string cases (Python's `repr`-like float
formatting) is approximated and never relied on by any theorem. -/
def pyStr : PyVal → String
  | .str s => s
  | .num q => toString q
  | .bool b => toString b
  | .null => "None"
  | .list _ => ""
  | .dict _ => ""

/-! ## Data model (`src/mindgarden/memory/models/document.py`)

`Memory` is the pydantic model for persisted memory items: `id`,
`content`, `source` are required strings, `timestamp` a required float,
`date_str` a required string, `embedding` optional, `metadata` a dict
defaulting to `{}`. -/

structure Memory where
  id : String
  content : String
  source : String
  timestamp : ℚ
  date_str : String
  embedding : Option (List ℚ) := Option.none
  metadata : Row := []

/-! ## Repository row mapping (`src/mindgarden/memory/db/memory_operations.py`)

Each read operation (`retrieve_memories`, `search_memories`,
`retrieve_memories_by_entity`) runs its query and then executes the
same inlined loop: for each result row, take `record.get('m', {})` and
try to build a pydantic `Memory` from its fields; on any exception the
row is logged and dropped, and the loop continues. -/

/-- Pydantic validation of a required `str` field value (missing keys
surface as `None`, which also fails validation). Pydantic's lax
coercion of numeric strings is not exercised by any claim. -/
def asStr : PyVal → Option String
  | .str s => Option.some s
  | _ => Option.none

/-- Pydantic validation of a required `float` field value. -/
def asNum : PyVal → Option ℚ
  | .num q => Option.some q
  | _ => Option.none

/-- Pydantic validation of a `Dict[str, Any]` field value. -/
def asDict : PyVal → Option Row
  | .dict fields => Option.some fields
  | _ => Option.none

/-- The body of the per-row `try` block shared by the three repository
reads: `Memory(id=memory_data.get('id'), content=..., source=...,
timestamp=..., date_str=..., metadata=memory_data.get('metadata', {}))`.
Returns `none` exactly when Python raises inside the `try` (the row is
not a node mapping, a required field is missing or of the wrong type). -/
def mkMemory (record : Row) : Option Memory :=
  match pyGet record "m" (PyVal.dict []) with
  | .dict props => do
      let id ← asStr (pyGet props "id" PyVal.null)
      let content ← asStr (pyGet props "content" PyVal.null)
      let source ← asStr (pyGet props "source" PyVal.null)
      let timestamp ← asNum (pyGet props "timestamp" PyVal.null)
      let date_str ← asStr (pyGet props "date_str" PyVal.null)
      let metadata ← asDict (pyGet props "metadata" (PyVal.dict []))
      Option.some
        { id := id, content := content, source := source,
          timestamp := timestamp, date_str := date_str,
          metadata := metadata }
  | _ => Option.none

/-- The shared result loop: well-formed rows become `Memory` values,
malformed rows are logged and dropped. -/
def rowsToMemories : List Row → List Memory
  | [] => []
  | r :: rs =>
      match mkMemory r with
      | Option.some m => m :: rowsToMemories rs
      | Option.none => rowsToMemories rs

/-- The graph driver, abstracted: query text and parameter dict in,
either an exception (`error`) or the result rows out. -/
abbrev RunQuery := String → Row → Except Unit (List Row)

def retrieve_memories_query : String :=
  "MATCH (m:Memory) RETURN m ORDER BY m.timestamp DESC LIMIT $limit"

def search_memories_query : String :=
  "MATCH (m:Memory) WHERE m.content CONTAINS $query_text RETURN m ORDER BY m.timestamp DESC LIMIT $limit"

def retrieve_by_entity_query : String :=
  "MATCH (m:Memory)-[:MENTIONS]->(e:Entity \x7bname: $entity_name\x7d) RETURN m ORDER BY m.timestamp DESC LIMIT $limit"

/-- Source `retrieve_memories(db_manager, limit)`: run the recency query; on a
query exception return `[]`; otherwise map the rows through the shared
loop. -/
def retrieve_memories (rq : RunQuery) (limit : ℕ) : List Memory :=
  match rq retrieve_memories_query [("limit", PyVal.num limit)] with
  | .error _ => []
  | .ok results => rowsToMemories results

/-- Source `search_memories(db_manager, query_text, limit)`: substring search,
newest first; a query exception is caught inside this function and
yields `[]` (it does NOT propagate to the caller). -/
def search_memories (rq : RunQuery) (query_text : String) (limit : ℕ) :
    List Memory :=
  match rq search_memories_query
      [("query_text", PyVal.str query_text), ("limit", PyVal.num limit)] with
  | .error _ => []
  | .ok results => rowsToMemories results

/-- Source `retrieve_memories_by_entity(db_manager, entity_name, limit)`. -/
def retrieve_memories_by_entity (rq : RunQuery) (entity_name : String)
    (limit : ℕ) : List Memory :=
  match rq retrieve_by_entity_query
      [("entity_name", PyVal.str entity_name), ("limit", PyVal.num limit)] with
  | .error _ => []
  | .ok results => rowsToMemories results

/-! ## Memory Manager facade (`src/mindgarden/memory/memory_manager.py`)

State: the ephemeral list `self.memories` (a Python list of dicts) and
the flag `self.use_neo4j`. `use_neo4j = true` is the DUAL state,
`false` the DEGRADED state. -/

structure MemoryManager where
  memories : List Row
  use_neo4j : Bool

/-- The sort key used by the ephemeral retrieval path:
`x.get('timestamp', 0)`. The program only ever stores numbers under
`'timestamp'` (a `store_document` metadata override could in principle
inject a non-number, on which Python's `sorted` would raise a
`TypeError` when mixed with numbers; the ordering theorems therefore
carry a numeric-timestamp hypothesis). -/
def keyQ (r : Row) : ℚ :=
  match pyGet r "timestamp" (PyVal.num 0) with
  | PyVal.num q => q
  | _ => 0

/-- Predicate: `r` holds a numeric value (or no value, defaulting to `0`) under
`'timestamp'`: the states on which Python's descending sort is
defined. -/
def NumericTs (r : Row) : Prop :=
  ∃ q : ℚ, pyGet r "timestamp" (PyVal.num 0) = PyVal.num q

/-- The comparison realised by
`sorted(self.memories, key=lambda x: x.get('timestamp', 0), reverse=True)`:
newest (largest timestamp) first. -/
def byRecency (a b : Row) : Prop := keyQ b ≤ keyQ a

instance : DecidableRel byRecency :=
  fun a b => inferInstanceAs (Decidable (keyQ b ≤ keyQ a))

instance : IsTotal Row byRecency := ⟨fun a b => le_total (keyQ b) (keyQ a)⟩

instance : IsTrans Row byRecency :=
  ⟨fun _ _ _ hab hbc => le_trans hbc hab⟩

/-- Slice `sorted_memories[:limit]`: the records picked by the ephemeral
path, via a stable sort, newest first. (Python's `sorted` is a stable
mergesort; `insertionSort` is likewise stable for the same total
preorder, so they produce the same list.) -/
def ephemeralPick (mem : List Row) (limit : ℕ) : List Row :=
  (List.insertionSort byRecency mem).take limit

/-- The display string built by the fallback loop:
`f"{text} [From: {source}, {date}]"` with `''` defaults. -/
def formatRec (r : Row) : String :=
  pyStr (pyGet r "text" (PyVal.str "")) ++ " [From: " ++
    pyStr (pyGet r "source" (PyVal.str "")) ++ ", " ++
    pyStr (pyGet r "date" (PyVal.str "")) ++ "]"

/-- Lines 77-89 of `memory_manager.py`: the default in-memory retrieval
(the `if self.memories:` guard, the descending sort, the `[:limit]`
slice and the format loop). -/
def ephemeralRetrieve (mem : List Row) (limit : ℕ) : List String :=
  if mem.isEmpty then []
  else (ephemeralPick mem limit).map formatRec

/-- The DUAL-path display string:
`f"{memory.content} [From: {memory.source}, {memory.date_str}]"`. -/
def formatMemory (m : Memory) : String :=
  m.content ++ " [From: " ++ m.source ++ ", " ++ m.date_str ++ "]"

/-- Method `MemoryManager.retrieve_relevant(query, limit=5)`.

In DUAL state the `try` block returns the formatted results of
`search_memories`. The enclosing `except` clause (which would fall
through to the ephemeral path) is unreachable for store failures,
because `search_memories` already catches any query exception and
returns `[]`; nothing else in the `try` body can raise, so the
embedding is total and the DUAL branch always returns the formatted
search result. The method assigns no attribute: it is a pure function
of the state (no state transition ever). -/
def MemoryManager.retrieve_relevant (rq : RunQuery) (st : MemoryManager)
    (query : String) (limit : ℕ) : List String :=
  if st.use_neo4j then
    (search_memories rq query limit).map formatMemory
  else
    ephemeralRetrieve st.memories limit

/-- One ephemeral conversation record, as the dict literal in
`store_conversation` builds it (keys in source order). -/
def convRec (text source : String) (ts : ℚ) (date : String) : Row :=
  [("text", PyVal.str text), ("source", PyVal.str source),
   ("timestamp", PyVal.num ts), ("date", PyVal.str date)]

/-- Method `MemoryManager.store_conversation(user_message, assistant_response)`,
ephemeral effect. `t` is the sampled `time.time()` and `d` its
formatted rendering. Appends the user record at `t` and the assistant
record at `t + 0.1` ("slightly later to preserve order").

The subsequent DUAL-state Neo4j section is wrapped in
`try/except Exception` that only logs: it never raises, never touches
`self.memories` and never assigns `self.use_neo4j`, so the state
effect below is the whole state effect of the method. -/
def MemoryManager.store_conversation (t : ℚ) (d : String)
    (user_message assistant_response : String) (st : MemoryManager) :
    MemoryManager :=
  { st with
    memories := st.memories ++
      [convRec user_message "user" t d,
       convRec assistant_response "assistant" (t + 1/10) d] }

/-- Method `MemoryManager.store_document(content, source, metadata=None)`,
ephemeral effect. The dict literal holds the generated fields
(text/source/timestamp/date); `if metadata:` then merges the metadata
over it via `dict.update`, so metadata bindings win over generated
fields. The DUAL-state Neo4j section is again a logged `try/except`
that touches neither `memories` nor `use_neo4j`. -/
def MemoryManager.store_document (t : ℚ) (d : String)
    (content source : String) (metadata : Option Row) (st : MemoryManager) :
    MemoryManager :=
  let memory_item := convRec content source t d
  let memory_item :=
    match metadata with
    | Option.none => memory_item
    | Option.some m => if m.isEmpty then memory_item else dictUpdate memory_item m
  { st with memories := st.memories ++ [memory_item] }

def clear_memory_query : String := "MATCH (m:Memory) DETACH DELETE m"

/-- Method `MemoryManager.clear_memory()`: `self.memories = []` first; then,
in DUAL state, the destructive graph delete inside `try/except` whose
failure is only logged. The function is total: it never raises, and
the ephemeral list is empty afterwards whatever the store does. -/
def MemoryManager.clear_memory (rq : RunQuery) (st : MemoryManager) :
    MemoryManager :=
  let cleared : MemoryManager := { st with memories := [] }
  if cleared.use_neo4j then
    match rq clear_memory_query [] with
    | .ok _ => cleared
    | .error _ => cleared
  else cleared

/-- Constructor `MemoryManager.__init__`: the ephemeral list starts empty and
`use_neo4j` false; the `try` block then attempts `Neo4jManager()` +
`connect()` + `setup_database()` + `EntityProcessor(...)` and only on
full success sets `use_neo4j = True`; any exception is caught and
logged ("falling back to in-memory storage only"). The three `Except`
arguments are the outcomes of `connect`, `setup_database` and the
`EntityProcessor` construction; the function is total, so construction
never raises. -/
def mkMemoryManager (connectR setupR epR : Except Unit Unit) :
    MemoryManager :=
  match connectR with
  | .error _ => { memories := [], use_neo4j := false }
  | .ok _ =>
      match setupR with
      | .error _ => { memories := [], use_neo4j := false }
      | .ok _ =>
          match epR with
          | .error _ => { memories := [], use_neo4j := false }
          | .ok _ => { memories := [], use_neo4j := true }

/-! ## Entity models (`src/mindgarden/memory/models/entity.py`) -/

structure Entity where
  name : String
  entity_type : String
  aliases : List String := []
  description : Option String := Option.none
  metadata : Row := []

structure Relationship where
  source : String
  target : String
  relationship_type : String
  description : Option String := Option.none
  confidence : ℚ := 1
  metadata : Row := []

structure ExtractedEntities where
  entities : List Entity := []
  relationships : List Relationship := []
  topics : List String := []

def emptyExtracted : ExtractedEntities :=
  { entities := [], relationships := [], topics := [] }

/-! ## Entity extraction
(`src/mindgarden/memory/entity/entity_processor.py`,
`extract_entities_from_text`)

The language-model call either raises (network failure), returns a
string that `json.loads` rejects (malformed JSON), or yields a parsed
JSON document, here a `PyVal`. The outcome of call-plus-`json.loads`
is abstracted as `LLMOutcome`. -/

inductive LLMOutcome where
  | fail
  | malformed
  | json (data : PyVal)

/-- Python attribute access `v.get(...)`: only dicts have `.get`;
anything else raises `AttributeError`. -/
def asObj : PyVal → Except Unit Row
  | .dict fields => .ok fields
  | _ => .error ()

/-- Python `for x in v`: lists iterate their elements, dicts their
keys, strings their characters; numbers, booleans and `None` raise
`TypeError`. -/
def pyIter : PyVal → Except Unit (List PyVal)
  | .list xs => .ok xs
  | .dict fields => .ok (fields.map (fun kv => PyVal.str kv.1))
  | .str s => .ok (s.toList.map (fun c => PyVal.str (String.mk [c])))
  | _ => .error ()

/-- Pydantic validation of a `str` field (raises `ValidationError` on
anything else). -/
def decodeStr : PyVal → Except Unit String
  | .str s => .ok s
  | _ => .error ()

/-- Pydantic validation of a `List[str]` field. -/
def decodeStrList : PyVal → Except Unit (List String)
  | .list xs => xs.mapM decodeStr
  | _ => .error ()

/-- Pydantic validation of an `Optional[str]` field (default `None`). -/
def decodeOptStr : PyVal → Except Unit (Option String)
  | .null => .ok Option.none
  | .str s => .ok (Option.some s)
  | _ => .error ()

/-- Pydantic validation of a `float` field (ints coerce; other values
raise). -/
def decodeNum : PyVal → Except Unit ℚ
  | .num q => .ok q
  | _ => .error ()

/-- Pydantic validation of a `Dict[str, Any]` field. -/
def decodeDict : PyVal → Except Unit Row
  | .dict fields => .ok fields
  | _ => .error ()

/-- One iteration of the entities loop:
`Entity(name=entity_data.get("name", "Unknown"),
entity_type=entity_data.get("entity_type", "unknown"),
aliases=entity_data.get("aliases", []),
description=entity_data.get("description"),
metadata=entity_data.get("metadata", {}))`. -/
def parseEntity (entity_data : PyVal) : Except Unit Entity :=
  match asObj entity_data with
  | .error e => .error e
  | .ok obj =>
    match decodeStr (pyGet obj "name" (PyVal.str "Unknown")) with
    | .error e => .error e
    | .ok name =>
      match decodeStr (pyGet obj "entity_type" (PyVal.str "unknown")) with
      | .error e => .error e
      | .ok entity_type =>
        match decodeStrList (pyGet obj "aliases" (PyVal.list [])) with
        | .error e => .error e
        | .ok aliases =>
          match decodeOptStr (pyGet obj "description" PyVal.null) with
          | .error e => .error e
          | .ok description =>
            match decodeDict (pyGet obj "metadata" (PyVal.dict [])) with
            | .error e => .error e
            | .ok metadata =>
                .ok { name := name, entity_type := entity_type,
                      aliases := aliases, description := description,
                      metadata := metadata }

/-- One iteration of the relationships loop: defaults are
`source`/`target`→"Unknown", `relationship_type`→"unknown",
`description`→`None`, `confidence`→`1.0`, `metadata`→`{}`. -/
def parseRelationship (rel_data : PyVal) : Except Unit Relationship :=
  match asObj rel_data with
  | .error e => .error e
  | .ok obj =>
    match decodeStr (pyGet obj "source" (PyVal.str "Unknown")) with
    | .error e => .error e
    | .ok source =>
      match decodeStr (pyGet obj "target" (PyVal.str "Unknown")) with
      | .error e => .error e
      | .ok target =>
        match decodeStr (pyGet obj "relationship_type" (PyVal.str "unknown")) with
        | .error e => .error e
        | .ok relationship_type =>
          match decodeOptStr (pyGet obj "description" PyVal.null) with
          | .error e => .error e
          | .ok description =>
            match decodeNum (pyGet obj "confidence" (PyVal.num 1)) with
            | .error e => .error e
            | .ok confidence =>
              match decodeDict (pyGet obj "metadata" (PyVal.dict [])) with
              | .error e => .error e
              | .ok metadata =>
                  .ok { source := source, target := target,
                        relationship_type := relationship_type,
                        description := description,
                        confidence := confidence, metadata := metadata }

/-- The parse section of `extract_entities_from_text`, applied to the
JSON document: `data.get("entities", [])` loop, then the
relationships loop, then `topics = data.get("topics", [])` validated
as `List[str]` by the `ExtractedEntities` constructor. Any exception
anywhere in this section is caught by the enclosing `try`. -/
def parseExtracted (data : PyVal) : Except Unit ExtractedEntities :=
  match asObj data with
  | .error e => .error e
  | .ok obj =>
    match pyIter (pyGet obj "entities" (PyVal.list [])) with
    | .error e => .error e
    | .ok entityItems =>
      match entityItems.mapM parseEntity with
      | .error e => .error e
      | .ok entities =>
        match pyIter (pyGet obj "relationships" (PyVal.list [])) with
        | .error e => .error e
        | .ok relItems =>
          match relItems.mapM parseRelationship with
          | .error e => .error e
          | .ok relationships =>
            match decodeStrList (pyGet obj "topics" (PyVal.list [])) with
            | .error e => .error e
            | .ok topics =>
                .ok { entities := entities,
                      relationships := relationships, topics := topics }

/-- Method `EntityProcessor.extract_entities_from_text`: the whole body sits
in one `try`; on any failure (the model call raising, `json.loads`
rejecting the response, or the parse section raising) the `except`
returns an empty `ExtractedEntities` — extraction never raises. -/
def extract_entities_from_text (outcome : LLMOutcome) : ExtractedEntities :=
  match outcome with
  | .fail => emptyExtracted
  | .malformed => emptyExtracted
  | .json data =>
      match parseExtracted data with
      | .ok extracted => extracted
      | .error _ => emptyExtracted

/-! ## Entity persistence (`EntityProcessor.store_entities`)

`store_entities` runs three loops (entities, relationships, topics)
inside ONE `try`; each loop iteration issues one `run_query` via
`_store_entity` / `_store_relationship` / `_store_topic`. On any
exception the `except` clause logs AND re-raises (`raise`), so the
first failing record aborts the remaining records and the error
propagates to the caller.

Each persisted record is represented by the (query text, parameters)
pair its helper sends to `run_query`; `store_entities` returns the
propagated outcome together with the trace of calls actually issued. -/

abbrev PersistCall := String × Row

def store_entity_query : String :=
  "MERGE (e:Entity \x7bname: $name\x7d) ON CREATE SET e.entity_type = $entity_type, e.aliases = $aliases, e.description = $description, e.created_at = timestamp() ON MATCH SET e.entity_type = $entity_type, e.aliases = $aliases, e.description = $description, e.updated_at = timestamp() RETURN e"

def store_relationship_query_template : String :=
  "MATCH (source:Entity \x7bname: $source\x7d) MATCH (target:Entity \x7bname: $target\x7d) MERGE (source)-[r:`$relationship_type`]->(target) ON CREATE SET r.description = $description, r.confidence = $confidence, r.created_at = timestamp() ON MATCH SET r.description = $description, r.confidence = $confidence, r.updated_at = timestamp() RETURN r"

def store_topic_query : String :=
  "MERGE (t:Topic \x7bname: $name\x7d) ON CREATE SET t.created_at = timestamp() ON MATCH SET t.updated_at = timestamp() RETURN t"

/-- The `run_query` call `_store_entity(entity)` makes. -/
def entityCall (e : Entity) : PersistCall :=
  (store_entity_query,
   [("name", PyVal.str e.name),
    ("entity_type", PyVal.str e.entity_type),
    ("aliases", PyVal.list (e.aliases.map PyVal.str)),
    ("description", PyVal.str (e.description.getD ""))])

/-- The `run_query` call `_store_relationship(relationship)` makes
(the edge-type label is interpolated into the query text by
`str.replace`). -/
def relationshipCall (r : Relationship) : PersistCall :=
  (store_relationship_query_template.replace "`$relationship_type`"
      ("`" ++ r.relationship_type ++ "`"),
   [("source", PyVal.str r.source),
    ("target", PyVal.str r.target),
    ("description", PyVal.str (r.description.getD "")),
    ("confidence", PyVal.num r.confidence)])

/-- The `run_query` call `_store_topic(topic)` makes. -/
def topicCall (t : String) : PersistCall :=
  (store_topic_query, [("name", PyVal.str t)])

/-- The sequence of `run_query` calls the three loops of
`store_entities` would issue if nothing failed: all entities, then all
relationships, then all topics. -/
def allCalls (extracted : ExtractedEntities) : List PersistCall :=
  extracted.entities.map entityCall ++
    extracted.relationships.map relationshipCall ++
    extracted.topics.map topicCall

/-- Issue the calls in order; the first exception aborts the rest and
propagates (the single `try` encloses all three loops and its
`except` re-raises). Returns the outcome and the calls actually
issued, the failing one included. -/
def runCalls (rq : RunQuery) : List PersistCall →
    Except Unit Unit × List PersistCall
  | [] => (.ok (), [])
  | c :: cs =>
      match rq c.1 c.2 with
      | .error _ => (.error (), [c])
      | .ok _ =>
          let rest := runCalls rq cs
          (rest.1, c :: rest.2)

/-- Method `EntityProcessor.store_entities(extracted)`: with no
`db_manager` it logs and returns without issuing anything; otherwise
it issues the persist calls in loop order, aborting and re-raising at
the first failure. -/
def store_entities (db : Option RunQuery) (extracted : ExtractedEntities) :
    Except Unit Unit × List PersistCall :=
  match db with
  | Option.none => (.ok (), [])
  | Option.some rq => runCalls rq (allCalls extracted)

/-! ## Graph semantics of the linking operations
(`src/mindgarden/memory/db/memory_operations.py`,
`connect_memory_to_entities` / `connect_memory_to_topics`)

The graph store is modelled by its node names and edges. The two
linking queries are interpreted by standard Cypher semantics:

* `connect_memory_to_topics` runs, per topic,
  `MATCH (m:Memory {id: $memory_id}) MERGE (t:Topic {name: $topic})
  MERGE (m)-[r:ABOUT]->(t)`: if the memory node does not match, zero
  rows flow and neither MERGE runs; otherwise the topic node is
  created if absent and the ABOUT edge is created if absent.
* `connect_memory_to_entities` runs, per entity name,
  `MATCH (m:Memory {id: $memory_id}) MATCH (e:Entity {name:
  $entity_name}) MERGE (m)-[r:MENTIONS]->(e)`: if either node does not
  match, nothing happens (the missing entity is silently skipped);
  otherwise the MENTIONS edge is created if absent.

Each iteration's `run_query` sits in its own `try/except` that only
logs, so a driver failure leaves the graph unchanged for that item and
the loop continues; the theorems below describe successful
execution. -/

structure Graph where
  memories : List String
  entities : List String
  topics : List String
  mentions : List (String × String)
  abouts : List (String × String)

/-- Cypher `MERGE` on a node: create it only when absent. -/
def mergeName (xs : List String) (x : String) : List String :=
  if x ∈ xs then xs else xs ++ [x]

/-- Cypher `MERGE` on an edge: create it only when absent. -/
def mergeEdge (es : List (String × String)) (e : String × String) :
    List (String × String) :=
  if e ∈ es then es else es ++ [e]

/-- One iteration of the `connect_memory_to_topics` loop. -/
def topicLinkStep (g : Graph) (memory_id topic : String) : Graph :=
  if memory_id ∈ g.memories then
    { g with
      topics := mergeName g.topics topic,
      abouts := mergeEdge g.abouts (memory_id, topic) }
  else g

/-- Source `connect_memory_to_topics(db_manager, memory_id, topics)`. -/
def connect_memory_to_topics (g : Graph) (memory_id : String)
    (topics : List String) : Graph :=
  topics.foldl (fun g t => topicLinkStep g memory_id t) g

/-- One iteration of the `connect_memory_to_entities` loop. -/
def entityLinkStep (g : Graph) (memory_id entity_name : String) : Graph :=
  if memory_id ∈ g.memories ∧ entity_name ∈ g.entities then
    { g with mentions := mergeEdge g.mentions (memory_id, entity_name) }
  else g

/-- Source `connect_memory_to_entities(db_manager, memory_id, entity_names)`. -/
def connect_memory_to_entities (g : Graph) (memory_id : String)
    (entity_names : List String) : Graph :=
  entity_names.foldl (fun g e => entityLinkStep g memory_id e) g

/-! ## Shared concrete fixtures -/

/-- A graph driver whose every query raises (an unreachable or failing
store). -/
def failDB : RunQuery := fun _ _ => .error ()

/-- A concrete ephemeral conversation record. -/
def demoRec : Row :=
  [("text", PyVal.str "hello"), ("source", PyVal.str "user"),
   ("timestamp", PyVal.num 1), ("date", PyVal.str "2025-01-01 00:00:00")]

/-! ## Helper lemmas -/

theorem rowsToMemories_append (xs ys : List Row) :
    rowsToMemories (xs ++ ys) = rowsToMemories xs ++ rowsToMemories ys := by
  induction xs with
  | nil => simp [rowsToMemories]
  | cons r rs ih =>
      simp only [List.cons_append, rowsToMemories]
      cases mkMemory r <;> simp [ih]

theorem rowsToMemories_cons_none {bad : Row} (hbad : mkMemory bad = Option.none)
    (ys : List Row) : rowsToMemories (bad :: ys) = rowsToMemories ys := by
  simp [rowsToMemories, hbad]

theorem runCalls_first_failure (rq : RunQuery) (c : PersistCall) :
    ∀ (pre post : List PersistCall),
      (∀ c2 ∈ pre, ∃ rows, rq c2.1 c2.2 = Except.ok rows) →
      rq c.1 c.2 = Except.error () →
      runCalls rq (pre ++ c :: post) = (Except.error (), pre ++ [c]) := by
  intro pre
  induction pre with
  | nil =>
      intro post _ hfail
      simp [runCalls, hfail]
  | cons c0 rest ih =>
      intro post hok hfail
      obtain ⟨rows, hrows⟩ := hok c0 (by simp)
      have hrest := ih post (fun c2 hc2 => hok c2 (by simp [hc2])) hfail
      simp [runCalls, hrows, hrest]

/-! ## C3 -/

/-- C3: `store_conversation` appends exactly two records to the
ephemeral list — the user record at timestamp `t` and the assistant
record at timestamp `t + 0.1` — so the assistant record's timestamp is
strictly greater than the user record's. -/
theorem store_conversation_appends_two_ordered (t : ℚ) (d u a : String)
    (st : MemoryManager) :
    (MemoryManager.store_conversation t d u a st).memories =
      st.memories ++ [convRec u "user" t d, convRec a "assistant" (t + 1/10) d] ∧
    (MemoryManager.store_conversation t d u a st).memories.length =
      st.memories.length + 2 ∧
    pyGet (convRec u "user" t d) "timestamp" (PyVal.num 0) = PyVal.num t ∧
    pyGet (convRec a "assistant" (t + 1/10) d) "timestamp" (PyVal.num 0) =
      PyVal.num (t + 1/10) ∧
    t < t + 1/10 := by
  refine ⟨rfl, ?_, rfl, rfl, by linarith⟩
  simp [MemoryManager.store_conversation]

/-! ## C5 -/

/-- C5: construction is total (it never raises: `mkMemoryManager` is a
total function of the connect/setup/processor outcomes); if `connect`,
`setup_database` or the `EntityProcessor` construction fails, the
instance is DEGRADED (`use_neo4j = false`); only full success gives
DUAL; and no later operation ever changes `use_neo4j` within the
instance's lifetime (`retrieve_relevant` and `get_entity_information`
assign no attribute at all and are embedded as pure functions of the
state). -/
theorem construction_never_dual_after_failure :
    (∀ sR eR, (mkMemoryManager (Except.error ()) sR eR).use_neo4j = false) ∧
    (∀ eR, (mkMemoryManager (Except.ok ()) (Except.error ()) eR).use_neo4j = false) ∧
    (mkMemoryManager (Except.ok ()) (Except.ok ()) (Except.error ())).use_neo4j = false ∧
    (mkMemoryManager (Except.ok ()) (Except.ok ()) (Except.ok ())).use_neo4j = true ∧
    (∀ t d u a st, (MemoryManager.store_conversation t d u a st).use_neo4j =
      st.use_neo4j) ∧
    (∀ t d c s md st, (MemoryManager.store_document t d c s md st).use_neo4j =
      st.use_neo4j) ∧
    (∀ rq st, (MemoryManager.clear_memory rq st).use_neo4j = st.use_neo4j) := by
  refine ⟨fun sR eR => rfl, fun eR => rfl, rfl, rfl, fun t d u a st => rfl,
    fun t d c s md st => rfl, fun rq st => ?_⟩
  unfold MemoryManager.clear_memory
  by_cases hb : st.use_neo4j <;>
    rcases h : rq clear_memory_query [] with e | rows <;> simp [hb, h]

/-! ## C9 -/

/-- C9: `clear_memory` always empties the ephemeral list: the clear
happens before the DUAL-state graph delete, whose failure is caught
and logged (the embedding is total, so nothing propagates), and the
state flag is untouched. -/
theorem clear_memory_always_empties (rq : RunQuery) (st : MemoryManager) :
    (MemoryManager.clear_memory rq st).memories = [] ∧
    (MemoryManager.clear_memory rq st).use_neo4j = st.use_neo4j := by
  unfold MemoryManager.clear_memory
  by_cases hb : st.use_neo4j <;>
    rcases h : rq clear_memory_query [] with e | rows <;> simp [hb, h]

/-! ## C1 -/

/-- C1 counterexample: in DUAL state with a failing graph store and
one ephemeral record, `retrieve_relevant` returns `[]` while the
DEGRADED-state call on the same ephemeral list returns the record —
the two results differ, so the claimed DUAL-failure/DEGRADED
equivalence is false. The ephemeral fallback in `retrieve_relevant` is
never reached on a store failure because `search_memories` already
catches the exception and returns an empty result. -/
theorem retrieve_relevant_dual_failure_cex :
    MemoryManager.retrieve_relevant failDB
      { memories := [demoRec], use_neo4j := true } "q" 5 = [] ∧
    MemoryManager.retrieve_relevant failDB
      { memories := [demoRec], use_neo4j := false } "q" 5 =
      ["hello [From: user, 2025-01-01 00:00:00]"] ∧
    ([] : List String) ≠ ["hello [From: user, 2025-01-01 00:00:00]"] := by
  refine ⟨rfl, rfl, by simp⟩

/-- C1 (amended): in DUAL state, when every query against the graph
store fails, `retrieve_relevant` returns the empty list for that call
(the repository layer absorbs the error and yields no rows; no state
transition occurs — the method is a pure function of the state), not
the ephemeral records. -/
theorem retrieve_relevant_dual_failure_empty (rq : RunQuery)
    (st : MemoryManager) (q : String) (k : ℕ)
    (hfail : ∀ qt p, rq qt p = Except.error ())
    (hdual : st.use_neo4j = true) :
    MemoryManager.retrieve_relevant rq st q k = [] := by
  simp [MemoryManager.retrieve_relevant, hdual, search_memories, hfail]

/-- C1 witness: the amended theorem at a concrete DUAL state with a
non-empty ephemeral list and the always-failing store. -/
theorem retrieve_relevant_dual_failure_empty_witness :
    MemoryManager.retrieve_relevant failDB
      { memories := [demoRec], use_neo4j := true } "q" 5 = [] :=
  retrieve_relevant_dual_failure_empty failDB
    { memories := [demoRec], use_neo4j := true } "q" 5
    (fun _ _ => rfl) rfl

/-! ## C2 -/

def entA : Entity := { name := "A", entity_type := "person" }

def entB : Entity := { name := "B", entity_type := "person" }

def demoBatch : ExtractedEntities :=
  { entities := [entA, entB], relationships := [], topics := [] }

/-- C2 counterexample: with a store that fails on the first entity of a
two-entity batch, `store_entities` re-raises (`Except.error` reaches
the caller) and the second entity's persist call is never issued — the
loop does not continue past the failing record. -/
theorem store_entities_aborts_cex :
    store_entities (Option.some failDB) demoBatch =
      (Except.error (), [entityCall entA]) ∧
    allCalls demoBatch = [entityCall entA, entityCall entB] ∧
    ([entityCall entA] : List PersistCall) ≠
      [entityCall entA, entityCall entB] := by
  refine ⟨rfl, rfl, ?_⟩
  intro h
  simpa using congrArg List.length h

/-- C2 (amended): a failure while persisting any single entity,
relationship or topic is logged and RE-RAISED by `store_entities`'s
single enclosing `except` clause, aborting the remaining records of
the batch: when the calls before `c` succeed and `c` fails, exactly
the calls up to and including `c` are issued and the error propagates
to the caller (where the Memory Manager's store paths catch it). -/
theorem store_entities_failure_aborts_batch (rq : RunQuery)
    (x : ExtractedEntities) (pre post : List PersistCall) (c : PersistCall)
    (hsplit : allCalls x = pre ++ c :: post)
    (hok : ∀ c2 ∈ pre, ∃ rows, rq c2.1 c2.2 = Except.ok rows)
    (hfail : rq c.1 c.2 = Except.error ()) :
    store_entities (Option.some rq) x = (Except.error (), pre ++ [c]) := by
  unfold store_entities
  rw [hsplit]
  exact runCalls_first_failure rq c pre post hok hfail

/-- C2 witness: the amended theorem at the concrete two-entity batch
with the always-failing store. -/
theorem store_entities_failure_aborts_batch_witness :
    store_entities (Option.some failDB) demoBatch =
      (Except.error (), [] ++ [entityCall entA]) :=
  store_entities_failure_aborts_batch failDB demoBatch []
    [entityCall entB] (entityCall entA) rfl (by simp) rfl

/-! ## C4 -/

def dupRecA : Row :=
  [("text", PyVal.str "a"), ("source", PyVal.str "user"),
   ("timestamp", PyVal.num 5), ("date", PyVal.str "d")]

def dupRecB : Row :=
  [("text", PyVal.str "b"), ("source", PyVal.str "user"),
   ("timestamp", PyVal.num 5), ("date", PyVal.str "d")]

/-- C4 counterexample: two ephemeral records with equal timestamps;
`retrieve_relevant(limit=2)` on the ephemeral path returns both, but
the picked records are NOT in strictly descending timestamp order
(the stable sort keeps tied records adjacent), so "ordered by strictly
descending timestamp" fails on this state. -/
theorem ephemeral_order_not_strict_cex :
    (MemoryManager.retrieve_relevant failDB
      { memories := [dupRecA, dupRecB], use_neo4j := false } "q" 2).length = 2 ∧
    MemoryManager.retrieve_relevant failDB
      { memories := [dupRecA, dupRecB], use_neo4j := false } "q" 2 =
      (ephemeralPick [dupRecA, dupRecB] 2).map formatRec ∧
    ¬ List.Pairwise (fun a b => keyQ b < keyQ a)
      (ephemeralPick [dupRecA, dupRecB] 2) := by
  have hpick : ephemeralPick [dupRecA, dupRecB] 2 = [dupRecA, dupRecB] := rfl
  refine ⟨rfl, rfl, ?_⟩
  rw [hpick]
  intro hp
  have h := (List.pairwise_cons.mp hp).1 dupRecB (by simp)
  have hA : keyQ dupRecA = 5 := rfl
  have hB : keyQ dupRecB = 5 := rfl
  rw [hA, hB] at h
  exact lt_irrefl _ h

/-- C4 (amended): on every ephemeral state whose records carry numeric
timestamps (the only states on which Python's descending sort is
defined — every state the store operations themselves produce), the
ephemeral path returns exactly `min k n` strings (hence at most `k`,
and exactly `k` whenever at least `k` records exist), and the picked
records are ordered by NON-INCREASING timestamp (`byRecency`), newest
first — strictness fails only on tied timestamps. -/
theorem retrieve_relevant_ephemeral_bounds (rq : RunQuery)
    (mem : List Row) (q : String) (k : ℕ)
    (hts : ∀ r ∈ mem, NumericTs r) :
    (MemoryManager.retrieve_relevant rq
      { memories := mem, use_neo4j := false } q k).length = min k mem.length ∧
    List.Pairwise byRecency (ephemeralPick mem k) ∧
    MemoryManager.retrieve_relevant rq { memories := mem, use_neo4j := false } q k =
      (ephemeralPick mem k).map formatRec := by
  have hsorted : List.Pairwise byRecency (List.insertionSort byRecency mem) :=
    List.sorted_insertionSort byRecency mem
  have hpick : List.Pairwise byRecency (ephemeralPick mem k) :=
    List.Pairwise.sublist (List.take_sublist k _) hsorted
  have heq : MemoryManager.retrieve_relevant rq
      { memories := mem, use_neo4j := false } q k =
      (ephemeralPick mem k).map formatRec := by
    cases mem with
    | nil => simp [MemoryManager.retrieve_relevant, ephemeralRetrieve, ephemeralPick]
    | cons r rs =>
        simp [MemoryManager.retrieve_relevant, ephemeralRetrieve]
  refine ⟨?_, hpick, heq⟩
  rw [heq]
  simp [ephemeralPick, List.length_take, List.length_insertionSort]

/-- C4 witness: the amended theorem at the concrete two-record state
(tied numeric timestamps) with limit 2. -/
theorem retrieve_relevant_ephemeral_bounds_witness :
    (MemoryManager.retrieve_relevant failDB
      { memories := [dupRecA, dupRecB], use_neo4j := false } "q" 2).length =
      min 2 ([dupRecA, dupRecB] : List Row).length ∧
    List.Pairwise byRecency (ephemeralPick [dupRecA, dupRecB] 2) ∧
    MemoryManager.retrieve_relevant failDB
      { memories := [dupRecA, dupRecB], use_neo4j := false } "q" 2 =
      (ephemeralPick [dupRecA, dupRecB] 2).map formatRec :=
  retrieve_relevant_ephemeral_bounds failDB [dupRecA, dupRecB] "q" 2
    (by
      intro r hr
      rcases List.mem_cons.mp hr with h | h
      · exact ⟨5, by rw [h]; rfl⟩
      · have h2 : r = dupRecB := by simpa using h
        exact ⟨5, by rw [h2]; rfl⟩)

/-! ## C10 -/

theorem lookup_dictSet_self (d : Row) (k : String) (v : PyVal) :
    List.lookup k (dictSet d k v) = Option.some v := by
  induction d with
  | nil => simp [dictSet, List.lookup]
  | cons kv rest ih =>
      obtain ⟨k0, v0⟩ := kv
      by_cases h : k0 = k
      · simp [dictSet, h, List.lookup]
      · have hb : (k == k0) = false := beq_eq_false_iff_ne.mpr (Ne.symm h)
        simp [dictSet, h, List.lookup, hb, ih]

theorem lookup_dictSet_ne (d : Row) (k k0 : String) (v : PyVal)
    (h : k ≠ k0) : List.lookup k (dictSet d k0 v) = List.lookup k d := by
  have hb : (k == k0) = false := beq_eq_false_iff_ne.mpr h
  induction d with
  | nil => simp [dictSet, List.lookup, hb]
  | cons kv rest ih =>
      obtain ⟨k1, v1⟩ := kv
      by_cases h1 : k1 = k0
      · subst h1
        simp [dictSet, List.lookup, hb]
      · simp [dictSet, h1, List.lookup, ih]

theorem lookup_dictUpdate_not_mem (m : Row) (k : String)
    (h : k ∉ m.map Prod.fst) :
    ∀ d : Row, List.lookup k (dictUpdate d m) = List.lookup k d := by
  induction m with
  | nil => intro d; rfl
  | cons kv rest ih =>
      intro d
      obtain ⟨k0, v0⟩ := kv
      have hk0 : k ≠ k0 := by
        intro hkk
        exact h (by simp [hkk])
      have hrest : k ∉ rest.map Prod.fst := by
        intro hmem
        exact h (by simp [hmem])
      have : dictUpdate d ((k0, v0) :: rest) = dictUpdate (dictSet d k0 v0) rest := rfl
      rw [this, ih hrest, lookup_dictSet_ne d k k0 v0 hk0]

theorem lookup_dictUpdate (m : Row) (k : String) (v : PyVal)
    (hnd : (m.map Prod.fst).Nodup) (hk : List.lookup k m = Option.some v) :
    ∀ d : Row, List.lookup k (dictUpdate d m) = Option.some v := by
  induction m with
  | nil => intro d; simp [List.lookup] at hk
  | cons kv rest ih =>
      intro d
      obtain ⟨k0, v0⟩ := kv
      have hstep : dictUpdate d ((k0, v0) :: rest) = dictUpdate (dictSet d k0 v0) rest := rfl
      rw [hstep]
      by_cases h : k = k0
      · subst h
        have hv : v0 = v := by simpa [List.lookup] using hk
        subst hv
        have hrest : k ∉ rest.map Prod.fst := by
          have := hnd
          simp only [List.map_cons, List.nodup_cons] at this
          exact this.1
        rw [lookup_dictUpdate_not_mem rest k hrest, lookup_dictSet_self]
      · have hb : (k == k0) = false := beq_eq_false_iff_ne.mpr h
        have hk2 : List.lookup k rest = Option.some v := by
          simpa [List.lookup, hb] using hk
        have hnd2 : (rest.map Prod.fst).Nodup := by
          simp only [List.map_cons, List.nodup_cons] at hnd
          exact hnd.2
        exact ih hnd2 hk2 (dictSet d k0 v0)

/-- C10: `store_document` builds the ephemeral record from the
generated fields and then merges the metadata over it with
`dict.update`, so any metadata binding — including one for `'text'`,
`'source'`, `'timestamp'` or `'date'` — overwrites the corresponding
generated field of the stored record. -/
theorem store_document_metadata_overwrites (t : ℚ) (d c s k : String)
    (m : Row) (v : PyVal) (st : MemoryManager)
    (hnd : (m.map Prod.fst).Nodup)
    (hk : List.lookup k m = Option.some v) :
    (MemoryManager.store_document t d c s (Option.some m) st).memories =
      st.memories ++ [dictUpdate (convRec c s t d) m] ∧
    List.lookup k (dictUpdate (convRec c s t d) m) = Option.some v := by
  have hne : m.isEmpty = false := by
    cases m with
    | nil => simp [List.lookup] at hk
    | cons kv rest => rfl
  refine ⟨?_, lookup_dictUpdate m k v hnd hk _⟩
  simp [MemoryManager.store_document, hne]

/-- C10 witness: the theorem at a concrete metadata dict overriding
the generated `'text'` field. -/
theorem store_document_metadata_overwrites_witness :
    (MemoryManager.store_document 0 "dt" "c" "s"
      (Option.some [("text", PyVal.str "override")])
      { memories := [], use_neo4j := false }).memories =
      ([] : List Row) ++
        [dictUpdate (convRec "c" "s" 0 "dt") [("text", PyVal.str "override")]] ∧
    List.lookup "text"
      (dictUpdate (convRec "c" "s" 0 "dt") [("text", PyVal.str "override")]) =
      Option.some (PyVal.str "override") :=
  store_document_metadata_overwrites 0 "dt" "c" "s" "text"
    [("text", PyVal.str "override")] (PyVal.str "override")
    { memories := [], use_neo4j := false } (by simp) rfl

/-! ## C7 -/

/-- C7: linking is idempotent and asymmetric about creation — given an
existing memory node and a well-formed edge list (at most one ABOUT
edge for the pair, as `MERGE` maintains), calling `link_to_topics`
twice with the same `(memory_id, topic)` leaves exactly one ABOUT edge
(the topic node auto-created on the first link), while
`link_to_entities` with a name that has no pre-existing Entity node
leaves the graph unchanged — no edge is created for it. -/
theorem topicLinkStep_of_mem (g : Graph) (m t : String)
    (hm : m ∈ g.memories) :
    topicLinkStep g m t =
      { g with topics := mergeName g.topics t,
               abouts := mergeEdge g.abouts (m, t) } := by
  simp [topicLinkStep, hm]

theorem link_topics_idempotent_entities_skip (g : Graph) (m t e : String)
    (hm : m ∈ g.memories)
    (hc : g.abouts.count (m, t) ≤ 1)
    (he : e ∉ g.entities) :
    (connect_memory_to_topics (connect_memory_to_topics g m [t]) m [t]).abouts.count (m, t) = 1 ∧
    t ∈ (connect_memory_to_topics g m [t]).topics ∧
    connect_memory_to_entities g m [e] = g := by
  have hone : connect_memory_to_topics g m [t] = topicLinkStep g m t := rfl
  have hg1 := topicLinkStep_of_mem g m t hm
  refine ⟨?_, ?_, ?_⟩
  · have htwo : connect_memory_to_topics (connect_memory_to_topics g m [t]) m [t] =
        topicLinkStep (topicLinkStep g m t) m t := by rw [hone]; rfl
    rw [htwo, hg1,
      topicLinkStep_of_mem
        { g with topics := mergeName g.topics t,
                 abouts := mergeEdge g.abouts (m, t) } m t hm]
    show (mergeEdge (mergeEdge g.abouts (m, t)) (m, t)).count (m, t) = 1
    by_cases hmem : (m, t) ∈ g.abouts
    · have h1 : mergeEdge g.abouts (m, t) = g.abouts := by simp [mergeEdge, hmem]
      rw [h1, h1]
      have hpos : 0 < g.abouts.count (m, t) := List.count_pos_iff.mpr hmem
      omega
    · have h1 : mergeEdge g.abouts (m, t) = g.abouts ++ [(m, t)] := by
        simp [mergeEdge, hmem]
      rw [h1]
      have h2 : mergeEdge (g.abouts ++ [(m, t)]) (m, t) = g.abouts ++ [(m, t)] := by
        simp [mergeEdge]
      rw [h2]
      have hz : g.abouts.count (m, t) = 0 := List.count_eq_zero.mpr hmem
      simp [hz]
  · rw [hone, hg1]
    show t ∈ mergeName g.topics t
    by_cases ht : t ∈ g.topics <;> simp [mergeName, ht]
  · have hstep : connect_memory_to_entities g m [e] = entityLinkStep g m e := rfl
    rw [hstep]
    simp [entityLinkStep, he]

/-- C7 witness: the theorem at a one-memory graph with no entities, no
topics and no edges. -/
theorem link_topics_idempotent_entities_skip_witness :
    (connect_memory_to_topics
      (connect_memory_to_topics ⟨["m1"], [], [], [], []⟩ "m1" ["t1"])
      "m1" ["t1"]).abouts.count ("m1", "t1") = 1 ∧
    "t1" ∈ (connect_memory_to_topics ⟨["m1"], [], [], [], []⟩ "m1" ["t1"]).topics ∧
    connect_memory_to_entities ⟨["m1"], [], [], [], []⟩ "m1" ["e1"] =
      ⟨["m1"], [], [], [], []⟩ :=
  link_topics_idempotent_entities_skip ⟨["m1"], [], [], [], []⟩ "m1" "t1" "e1"
    (by simp) (by simp) (by simp)

/-! ## C8 -/

def goodRow : Row :=
  [("m", PyVal.dict
    [("id", PyVal.str "1"), ("content", PyVal.str "c"),
     ("source", PyVal.str "user"), ("timestamp", PyVal.num 1),
     ("date_str", PyVal.str "d")])]

def badRow : Row := [("m", PyVal.dict [])]

/-- A driver that answers every query with one well-formed row
followed by one malformed row (a node with no fields). -/
def demoRowsDB : RunQuery := fun _ _ => .ok [goodRow, badRow]

/-- C8: for each of the three repository reads, a result row whose
fields fail to build a `Memory` value is dropped while every other
well-formed row is still returned: when the query yields
`xs ++ bad :: ys` with `bad` malformed, the result is exactly the
conversion of `xs` followed by the conversion of `ys` — one malformed
row never aborts the rest of the query result. -/
theorem repository_reads_drop_malformed (rq : RunQuery) (k : ℕ)
    (q en : String) (xs ys : List Row) (bad : Row)
    (hbad : mkMemory bad = Option.none)
    (h1 : rq retrieve_memories_query [("limit", PyVal.num k)] =
      Except.ok (xs ++ bad :: ys))
    (h2 : rq search_memories_query
      [("query_text", PyVal.str q), ("limit", PyVal.num k)] =
      Except.ok (xs ++ bad :: ys))
    (h3 : rq retrieve_by_entity_query
      [("entity_name", PyVal.str en), ("limit", PyVal.num k)] =
      Except.ok (xs ++ bad :: ys)) :
    retrieve_memories rq k = rowsToMemories xs ++ rowsToMemories ys ∧
    search_memories rq q k = rowsToMemories xs ++ rowsToMemories ys ∧
    retrieve_memories_by_entity rq en k =
      rowsToMemories xs ++ rowsToMemories ys := by
  have hdrop : rowsToMemories (xs ++ bad :: ys) =
      rowsToMemories xs ++ rowsToMemories ys := by
    rw [rowsToMemories_append, rowsToMemories_cons_none hbad]
  refine ⟨?_, ?_, ?_⟩
  · simp [retrieve_memories, h1, hdrop]
  · simp [search_memories, h2, hdrop]
  · simp [retrieve_memories_by_entity, h3, hdrop]

/-- C8 witness: the theorem at the driver returning one well-formed
and one malformed row; the well-formed row's memory survives, the
malformed row is dropped. -/
theorem repository_reads_drop_malformed_witness :
    retrieve_memories demoRowsDB 5 =
      rowsToMemories [goodRow] ++ rowsToMemories [] ∧
    search_memories demoRowsDB "q" 5 =
      rowsToMemories [goodRow] ++ rowsToMemories [] ∧
    retrieve_memories_by_entity demoRowsDB "X" 5 =
      rowsToMemories [goodRow] ++ rowsToMemories [] :=
  repository_reads_drop_malformed demoRowsDB 5 "q" "X" [goodRow] [] badRow
    rfl rfl rfl rfl

/-! ## C6 -/

/-- C6: extraction is best-effort — a failing language-model call, a
response `json.loads` rejects, and a parsed document on which the
field processing raises all yield the empty `ExtractedEntities`
without raising (the embedding is total); and a parsed entity record
with no `entity_type`/`aliases` bindings defaults them to `"unknown"`
and `[]`, while a relationship record with no `confidence` binding
defaults it to `1.0`. -/
theorem extract_best_effort_and_defaults
    (data : PyVal) (obj robj : Row) (e : Entity) (r : Relationship)
    (hparse : parseExtracted data = Except.error ())
    (hET : List.lookup "entity_type" obj = Option.none)
    (hAl : List.lookup "aliases" obj = Option.none)
    (hC : List.lookup "confidence" robj = Option.none)
    (he : parseEntity (PyVal.dict obj) = Except.ok e)
    (hr : parseRelationship (PyVal.dict robj) = Except.ok r) :
    extract_entities_from_text LLMOutcome.fail = emptyExtracted ∧
    extract_entities_from_text LLMOutcome.malformed = emptyExtracted ∧
    extract_entities_from_text (LLMOutcome.json data) = emptyExtracted ∧
    e.entity_type = "unknown" ∧ e.aliases = [] ∧ r.confidence = 1 := by
  have hent : e.entity_type = "unknown" ∧ e.aliases = [] := by
    have hET2 : pyGet obj "entity_type" (PyVal.str "unknown") =
        PyVal.str "unknown" := by simp [pyGet, hET]
    have hAl2 : pyGet obj "aliases" (PyVal.list []) = PyVal.list [] := by
      simp [pyGet, hAl]
    have hAl3 : decodeStrList (PyVal.list []) = Except.ok [] := rfl
    have hET3 : decodeStr (PyVal.str "unknown") = Except.ok "unknown" := rfl
    unfold parseEntity at he
    simp only [asObj] at he
    rw [hET2, hAl2] at he
    simp only [hET3, hAl3] at he
    cases hn : decodeStr (pyGet obj "name" (PyVal.str "Unknown")) with
    | error u => rw [hn] at he; simp at he
    | ok name =>
      rw [hn] at he
      cases hd : decodeOptStr (pyGet obj "description" PyVal.null) with
      | error u => rw [hd] at he; simp at he
      | ok description =>
        rw [hd] at he
        cases hmd : decodeDict (pyGet obj "metadata" (PyVal.dict [])) with
        | error u => rw [hmd] at he; simp at he
        | ok metadata =>
          rw [hmd] at he
          simp only [Except.ok.injEq] at he
          rw [← he]
          exact ⟨rfl, rfl⟩
  have hconf : r.confidence = 1 := by
    have hC2 : pyGet robj "confidence" (PyVal.num 1) = PyVal.num 1 := by
      simp [pyGet, hC]
    have hC3 : decodeNum (PyVal.num 1) = Except.ok 1 := rfl
    unfold parseRelationship at hr
    simp only [asObj] at hr
    rw [hC2] at hr
    simp only [hC3] at hr
    cases hs : decodeStr (pyGet robj "source" (PyVal.str "Unknown")) with
    | error u => rw [hs] at hr; simp at hr
    | ok source =>
      rw [hs] at hr
      cases ht : decodeStr (pyGet robj "target" (PyVal.str "Unknown")) with
      | error u => rw [ht] at hr; simp at hr
      | ok target =>
        rw [ht] at hr
        cases hrt : decodeStr (pyGet robj "relationship_type" (PyVal.str "unknown")) with
        | error u => rw [hrt] at hr; simp at hr
        | ok relationship_type =>
          rw [hrt] at hr
          cases hd : decodeOptStr (pyGet robj "description" PyVal.null) with
          | error u => rw [hd] at hr; simp at hr
          | ok description =>
            rw [hd] at hr
            cases hmd : decodeDict (pyGet robj "metadata" (PyVal.dict [])) with
            | error u => rw [hmd] at hr; simp at hr
            | ok metadata =>
              rw [hmd] at hr
              simp only [Except.ok.injEq] at hr
              rw [← hr]
  exact ⟨rfl, rfl, by simp [extract_entities_from_text, hparse],
    hent.1, hent.2, hconf⟩

/-- C6 witness: the theorem at a non-object JSON document (parse
raises), an entity record `{"name": "Alice"}` and a relationship
record `{"source": "A", "target": "B"}`, both omitting their optional
fields. -/
theorem extract_best_effort_and_defaults_witness :
    extract_entities_from_text LLMOutcome.fail = emptyExtracted ∧
    extract_entities_from_text LLMOutcome.malformed = emptyExtracted ∧
    extract_entities_from_text (LLMOutcome.json (PyVal.num 0)) = emptyExtracted ∧
    (⟨"Alice", "unknown", [], Option.none, []⟩ : Entity).entity_type = "unknown" ∧
    (⟨"Alice", "unknown", [], Option.none, []⟩ : Entity).aliases = ([] : List String) ∧
    (⟨"A", "B", "unknown", Option.none, 1, []⟩ : Relationship).confidence = 1 :=
  extract_best_effort_and_defaults (PyVal.num 0)
    [("name", PyVal.str "Alice")]
    [("source", PyVal.str "A"), ("target", PyVal.str "B")]
    ⟨"Alice", "unknown", [], Option.none, []⟩
    ⟨"A", "B", "unknown", Option.none, 1, []⟩
    rfl rfl rfl rfl rfl rfl

end MindGarden
